import Mathlib

/-
  Verification of the QuickCourt court-booking core.

  Shallow embedding of the booking routes and controllers:
  - `flexibleBooking` embeds the POST /flexible-booking handler
    (backend/src/routes/flexibleBooking.js, lines 15-281);
  - `checkAvailability` embeds the POST /check-availability handler
    (same file, lines 290-460);
  - `createBooking`, `cancelBooking`, `rescheduleBooking` embed the
    booking controller of the same names (the controller importing
    prisma, exporting createBooking and friends).

  Times of day are minutes since midnight (the handlers parse "HH:MM"
  into startHour*60 + startMinute and compare the resulting Date
  objects, which on the fixed base date 1970-01-01 orders exactly as
  the minute counts do). Dates are civil epoch days; `new Date(iso)`
  yields UTC midnight of that day, and getDay() of epoch day d is
  (d + 4) % 7 since 1970-01-01 was a Thursday. Money amounts are
  rationals (JS numbers; all amounts in scope are exact).
-/

namespace QuickCourt

/-- Booking status column: the source uses the strings
pending / confirmed / cancelled / completed. -/
inductive BookingStatus where
  | pending
  | confirmed
  | cancelled
  | completed
deriving DecidableEq, Repr

/-- A row of the Booking table, with the columns the booking paths read
and write. `bookingDate` is a civil epoch day, `startTime`/`endTime`
are minutes since midnight. -/
structure Booking where
  id : Nat
  courtId : Nat
  venueId : Nat
  userId : Nat
  bookingDate : Nat
  startTime : Nat
  endTime : Nat
  totalAmount : Rat
  status : BookingStatus
  cancelledAt : Option Nat := none
  cancellationReason : Option String := none
deriving DecidableEq, Repr

/-- A row of the VenueWorkingHours table (venue-level weekly hours),
with openTime/closeTime already in minutes since midnight. -/
structure WorkingHour where
  venueId : Nat
  dayOfWeek : Nat
  startMin : Nat
  endMin : Nat
  isActive : Bool
deriving DecidableEq, Repr

/-- getDay() of the UTC-midnight date of epoch day `d`
(1970-01-01 was a Thursday, day 4; 0 = Sunday). -/
def dayOfWeek (d : Nat) : Nat := (d + 4) % 7

/-- prisma.venueWorkingHours.findFirst with
where venueId, dayOfWeek, isActive true
(flexibleBooking.js lines 94-100 and 345-351). -/
def findWorkingHour (rows : List WorkingHour) (venueId day : Nat) :
    Option WorkingHour :=
  rows.find? fun w => w.venueId == venueId && w.dayOfWeek == day && w.isActive

/-- The wall clock the handlers read: today's civil epoch day and the
current minutes-of-day (now.getHours()*60 + now.getMinutes()). -/
structure Clock where
  today : Nat
  nowMinutes : Nat
deriving DecidableEq, Repr

/-- The database rows the flexible-booking handlers read besides the
Booking table: whether the venue lookup (id, isApproved) succeeds,
whether the court lookup (id, venueId, isActive) succeeds, the court's
pricePerHour, and the VenueWorkingHours rows. -/
structure Env where
  venueApproved : Bool
  courtFound : Bool
  pricePerHour : Rat
  workingHours : List WorkingHour
deriving DecidableEq, Repr

/-- A POST /flexible-booking (or /check-availability) request body
after express-validator: the "HH:MM" fields parsed to minutes. -/
structure FlexRequest where
  venueId : Nat
  courtId : Nat
  bookingDate : Nat
  startMinutes : Nat
  endMinutes : Nat
  userId : Nat
deriving DecidableEq, Repr

/-- The four-clause OR of the conflict query in the flexible-booking
handler (flexibleBooking.js lines 168-197), with `b` an existing row
and S/E the new interval: starts during / ends during / new contains
existing / existing contains new. -/
def flexOverlapClause (b : Booking) (S E : Nat) : Bool :=
  (b.startTime ≤ S && S < b.endTime) ||
  (b.startTime < E && E ≤ b.endTime) ||
  (S ≤ b.startTime && b.endTime ≤ E) ||
  (b.startTime ≤ S && E ≤ b.endTime)

/-- The conflict findMany of the flexible-booking handler
(flexibleBooking.js lines 158-199): same court, same date, status in
[confirmed, pending], and the four-clause overlap OR. -/
def flexConflicts (ledger : List Booking) (courtId date S E : Nat) :
    List Booking :=
  ledger.filter fun b =>
    b.courtId == courtId && b.bookingDate == date &&
    (b.status == .confirmed || b.status == .pending) &&
    flexOverlapClause b S E

/-- The outcomes of the POST /flexible-booking handler.
`pastTime` carries the current minutes (the message interpolates it),
`opensAt`/`closesAt` carry the boundary of the working-hours window,
`venueClosed` the weekday named in the message. -/
inductive FlexResult where
  | venueNotFound
  | courtNotFound
  | invalidRange
  | pastDate
  | pastTime (current : Nat)
  | opensAt (t : Nat)
  | closesAt (t : Nat)
  | venueClosed (day : Nat)
  | conflict (bs : List Booking)
  | created (b : Booking)
deriving DecidableEq, Repr

/-- The POST /flexible-booking handler (flexibleBooking.js lines
15-281), in its source order: venue lookup, court lookup, time-range
check (startMinutes >= endMinutes), past-date, past-time (start <=
current minutes on today), working-hours window for the weekday
(none means closed), price computation, conflict scan, insert of a
confirmed booking. Returns the result and the new Booking table. -/
def flexibleBooking (env : Env) (clock : Clock) (ledger : List Booking)
    (nextId : Nat) (req : FlexRequest) : FlexResult × List Booking :=
  if !env.venueApproved then (.venueNotFound, ledger)
  else if !env.courtFound then (.courtNotFound, ledger)
  else if req.endMinutes ≤ req.startMinutes then (.invalidRange, ledger)
  else if req.bookingDate < clock.today then (.pastDate, ledger)
  else if req.bookingDate == clock.today &&
      req.startMinutes ≤ clock.nowMinutes then
    (.pastTime clock.nowMinutes, ledger)
  else
    match findWorkingHour env.workingHours req.venueId
        (dayOfWeek req.bookingDate) with
    | none => (.venueClosed (dayOfWeek req.bookingDate), ledger)
    | some w =>
      if req.startMinutes < w.startMin then (.opensAt w.startMin, ledger)
      else if w.endMin < req.endMinutes then (.closesAt w.endMin, ledger)
      else
        let totalAmount : Rat :=
          ((req.endMinutes : Rat) - (req.startMinutes : Rat)) / 60 *
            env.pricePerHour
        let cs := flexConflicts ledger req.courtId req.bookingDate
          req.startMinutes req.endMinutes
        if 0 < cs.length then (.conflict cs, ledger)
        else
          let b : Booking :=
            { id := nextId
              courtId := req.courtId
              venueId := req.venueId
              userId := req.userId
              bookingDate := req.bookingDate
              startTime := req.startMinutes
              endTime := req.endMinutes
              totalAmount := totalAmount
              status := .confirmed }
          (.created b, ledger ++ [b])

/-- The check-phase outcome of a flexible-booking request, and
`interleavedRace`, model the handler under concurrency. In the source
the conflict findMany (line 158) and the booking create (line 215) are
two separately awaited database calls with no enclosing transaction and
no lock, so two requests can both complete their check phase against
the same Booking-table snapshot before either insert commits; when both
checks pass, both inserts then run unconditionally. `interleavedRace`
is the schedule check-A, check-B, insert-A, insert-B over a common
starting ledger. -/
def interleavedRace (env : Env) (clock : Clock) (ledger : List Booking)
    (reqA reqB : FlexRequest) : List Booking :=
  match (flexibleBooking env clock ledger 1 reqA).1,
      (flexibleBooking env clock ledger 2 reqB).1 with
  | .created ba, .created bb => ledger ++ [ba, bb]
  | .created ba, _ => ledger ++ [ba]
  | _, .created bb => ledger ++ [bb]
  | _, _ => ledger

/-- The outcomes of the POST /check-availability handler
(flexibleBooking.js lines 290-460). On the success path the handler
returns isAvailable together with the duration in hours and the total
amount it computed before any validation. -/
inductive AvailResult where
  | courtNotFound
  | pastDate
  | pastTime (current : Nat)
  | opensAt (t : Nat)
  | closesAt (t : Nat)
  | venueClosed (day : Nat)
  | ok (isAvailable : Bool) (durationHours totalAmount : Rat)
deriving DecidableEq, Repr

/-- The POST /check-availability handler (flexibleBooking.js lines
290-460): court lookup, duration and amount computed up front with no
start < end validation, past-date, past-time, working-hours window,
then a read-only conflict scan using the plain half-open overlap test
(line 434: startTimeDate < booking.endTime && endTimeDate >
booking.startTime). Performs no write. -/
def checkAvailability (env : Env) (clock : Clock) (ledger : List Booking)
    (req : FlexRequest) : AvailResult :=
  if !env.courtFound then .courtNotFound
  else
    let durationHours : Rat :=
      ((req.endMinutes : Rat) - (req.startMinutes : Rat)) / 60
    let totalAmount : Rat := durationHours * env.pricePerHour
    if req.bookingDate < clock.today then .pastDate
    else if req.bookingDate == clock.today &&
        req.startMinutes ≤ clock.nowMinutes then
      .pastTime clock.nowMinutes
    else
      match findWorkingHour env.workingHours req.venueId
          (dayOfWeek req.bookingDate) with
      | none => .venueClosed (dayOfWeek req.bookingDate)
      | some w =>
        if req.startMinutes < w.startMin then .opensAt w.startMin
        else if w.endMin < req.endMinutes then .closesAt w.endMin
        else
          let existing := ledger.filter fun b =>
            b.courtId == req.courtId && b.bookingDate == req.bookingDate &&
            (b.status == .confirmed || b.status == .pending)
          let hasConflict := existing.any fun b =>
            req.startMinutes < b.endTime && b.startTime < req.endMinutes
          .ok (!hasConflict) durationHours totalAmount

/-- The half-open overlap rule of the spec, §4.1:
a.start < b.end && b.start < a.end. The check-availability handler's
conflict test (line 434) is exactly this rule. -/
def specOverlaps (aS aE bS bE : Nat) : Bool := aS < bE && bS < aE

/-- The duck-typed court.operatingHours JSON blob the booking
controller's createBooking reads: optional daysOfWeek list, optional
effective date range (compared against the request date), optional
daily startTime/endTime already in minutes (defaulting to 0 and 1440
when absent). -/
structure OperatingHours where
  daysOfWeek : Option (List Nat)
  startDate : Option Nat
  endDate : Option Nat
  startMin : Option Nat
  endMin : Option Nat
deriving DecidableEq, Repr

/-- The court row the booking controller's createBooking loads
(court.findFirst with isActive true, including venue id and
isApproved). -/
structure CtrlCourt where
  id : Nat
  venueId : Nat
  pricePerHour : Rat
  venueApproved : Bool
  operatingHours : Option OperatingHours
deriving DecidableEq, Repr

/-- A request body of the booking controller's createBooking, after
the HH:MM fields are parsed to minutes. `clientTotal` is the
totalAmount field of the body; in the source it is used when truthy
(`totalAmount || court.pricePerHour * ...`), so none and 0 both fall
back to the computed price. -/
structure CtrlRequest where
  courtId : Nat
  bookingDate : Nat
  startMinutes : Nat
  endMinutes : Nat
  clientTotal : Option Rat
  userId : Nat
deriving DecidableEq, Repr

/-- Outcomes of the booking controller's createBooking. -/
inductive CtrlResult where
  | invalidRange
  | pastDate
  | pastTime (current : Nat)
  | courtNotFound
  | venueNotApproved
  | venueClosed (day : Nat)
  | outsideDateRange
  | outsideDailyHours
  | slotUnavailable
  | conflict (b : Booking)
  | created (b : Booking)
deriving DecidableEq, Repr

/-- The two-clause OR of the conflict findFirst in the booking
controller's createBooking: the new interval starts during an existing
booking, or ends during one. Unlike the four-clause query of the
flexible-booking route, it has no clause for an existing booking
strictly contained inside the new interval. -/
def ctrlOverlapClause (b : Booking) (S E : Nat) : Bool :=
  (b.startTime ≤ S && S < b.endTime) ||
  (b.startTime < E && E ≤ b.endTime)

/-- The conflict findFirst of the booking controller's createBooking:
same court, same date, status not cancelled (so completed bookings
also match), and the two-clause overlap OR. -/
def ctrlConflict (ledger : List Booking) (courtId date S E : Nat) :
    Option Booking :=
  ledger.find? fun b =>
    b.courtId == courtId && b.bookingDate == date &&
    b.status != .cancelled && ctrlOverlapClause b S E

/-- The operating-hours block of the booking controller's
createBooking, run only when court.operatingHours is set: the weekday
must be listed in daysOfWeek (a missing list means closed), the date
must fall in the optional effective range, and the interval must lie
within the daily window (defaults 0 and 1440). Returns the rejection
the block produces, if any. -/
def ohCheck (o : OperatingHours) (req : CtrlRequest) : Option CtrlResult :=
  let day := dayOfWeek req.bookingDate
  let dayListed := match o.daysOfWeek with
    | none => false
    | some ds => ds.contains day
  let beforeStart : Bool := match o.startDate with
    | some sd => req.bookingDate < sd
    | none => false
  let afterEnd : Bool := match o.endDate with
    | some ed => ed < req.bookingDate
    | none => false
  if !dayListed then some (.venueClosed day)
  else if beforeStart then some .outsideDateRange
  else if afterEnd then some .outsideDateRange
  else
    let opStart := o.startMin.getD 0
    let opEnd := o.endMin.getD 1440
    if req.startMinutes < opStart || opEnd < req.endMinutes then
      some .outsideDailyHours
    else none

/-- The booking controller's createBooking, in its source order:
time-range check (endMinutes <= startMinutes), past-date, past-time,
court lookup, venue approval, the optional operating-hours block, the
time-slot availability lookup (modelled by the boolean result
`slotAvailable` of that query), the two-clause conflict findFirst, and
the insert of a confirmed booking whose amount is the truthy
client-supplied total or else pricePerHour * duration in hours. -/
def createBooking (court : Option CtrlCourt) (slotAvailable : Bool)
    (clock : Clock) (ledger : List Booking) (nextId : Nat)
    (req : CtrlRequest) : CtrlResult × List Booking :=
  if req.endMinutes ≤ req.startMinutes then (.invalidRange, ledger)
  else if req.bookingDate < clock.today then (.pastDate, ledger)
  else if req.bookingDate == clock.today &&
      req.startMinutes ≤ clock.nowMinutes then
    (.pastTime clock.nowMinutes, ledger)
  else
    match court with
    | none => (.courtNotFound, ledger)
    | some c =>
      if !c.venueApproved then (.venueNotApproved, ledger)
      else
        match (match c.operatingHours with
          | none => none
          | some o => ohCheck o req) with
        | some e => (e, ledger)
        | none =>
          if !slotAvailable then (.slotUnavailable, ledger)
          else
            match ctrlConflict ledger req.courtId req.bookingDate
                req.startMinutes req.endMinutes with
            | some b => (.conflict b, ledger)
            | none =>
              let durMin := req.endMinutes - req.startMinutes
              let amount : Rat := match req.clientTotal with
                | some t => if t = 0 then
                    c.pricePerHour * ((durMin : Rat) / 60)
                  else t
                | none => c.pricePerHour * ((durMin : Rat) / 60)
              let b : Booking :=
                { id := nextId
                  courtId := req.courtId
                  venueId := c.venueId
                  userId := req.userId
                  bookingDate := req.bookingDate
                  startTime := req.startMinutes
                  endTime := req.endMinutes
                  totalAmount := amount
                  status := .confirmed }
              (.created b, ledger ++ [b])

/-- Outcomes of the booking controller's cancelBooking. `notFound` is
the 404 "Booking not found or already cancelled" response. -/
inductive CancelResult where
  | notFound
  | cancelledOk (b : Booking)
deriving DecidableEq, Repr

/-- The booking controller's cancelBooking: findFirst a booking with
this id, this user, and status not cancelled; 404 when none matches
(so also when the booking exists but is already cancelled); otherwise
update the row to status cancelled, stamping cancelledAt and
cancellationReason (defaulting to "Cancelled by customer"). -/
def cancelBooking (ledger : List Booking) (bookingId userId : Nat)
    (reason : Option String) (now : Nat) : CancelResult × List Booking :=
  match ledger.find? fun b =>
      b.id == bookingId && b.userId == userId &&
      b.status != .cancelled with
  | none => (.notFound, ledger)
  | some b0 =>
    let b1 : Booking :=
      { b0 with
        status := .cancelled
        cancelledAt := some now
        cancellationReason := some (reason.getD "Cancelled by customer") }
    (.cancelledOk b1,
      ledger.map fun b => if b.id == bookingId then b1 else b)

/-- Outcomes of the booking controller's rescheduleBooking. -/
inductive RescheduleResult where
  | notFound
  | conflict (b : Booking)
  | rescheduled (b : Booking)
deriving DecidableEq, Repr

/-- The booking controller's rescheduleBooking: findFirst a booking
with this id, this user, and status pending or confirmed; check the
new slot against other non-cancelled bookings of the same court with
the two-clause overlap OR; then update the SAME row in place, setting
bookingDate, startTime and endTime to the new values (no cancellation
and no new record). -/
def rescheduleBooking (ledger : List Booking) (bookingId userId : Nat)
    (newDate newStart newEnd : Nat) : RescheduleResult × List Booking :=
  match ledger.find? fun b =>
      b.id == bookingId && b.userId == userId &&
      (b.status == .pending || b.status == .confirmed) with
  | none => (.notFound, ledger)
  | some b0 =>
    match ledger.find? fun b =>
        b.courtId == b0.courtId && b.bookingDate == newDate &&
        b.status != .cancelled && b.id != bookingId &&
        ctrlOverlapClause b newStart newEnd with
    | some cb => (.conflict cb, ledger)
    | none =>
      let b1 : Booking :=
        { b0 with
          bookingDate := newDate
          startTime := newStart
          endTime := newEnd }
      (.rescheduled b1,
        ledger.map fun b => if b.id == bookingId then b1 else b)

/-! Concrete fixtures. Epoch day 19000 is the current day, 19001
(a Sunday, dayOfWeek 0) the requested day; the venue (id 1) has an
active Sunday window 09:00-21:00; court 7 costs 20 per hour; the
clock reads 10:00. -/

/-- Fixture clock: today epoch day 19000, now 10:00 (600 minutes). -/
def clockC : Clock := { today := 19000, nowMinutes := 600 }

/-- Fixture Sunday working-hours row for venue 1: 09:00-21:00, active. -/
def whSunday : WorkingHour :=
  { venueId := 1, dayOfWeek := 0, startMin := 540, endMin := 1260,
    isActive := true }

/-- Fixture flexible-booking environment: venue approved, court active,
price 20 per hour, the Sunday window configured. -/
def envC : Env :=
  { venueApproved := true, courtFound := true, pricePerHour := 20,
    workingHours := [whSunday] }

/-- Fixture environment with zero configured working-hours rows. -/
def envNoWH : Env :=
  { venueApproved := true, courtFound := true, pricePerHour := 20,
    workingHours := [] }

/-- Fixture request: court 7, tomorrow (epoch day 19001), 14:00-15:00. -/
def reqC : FlexRequest :=
  { venueId := 1, courtId := 7, bookingDate := 19001,
    startMinutes := 840, endMinutes := 900, userId := 5 }

/-- Fixture controller court 7 of venue 1, approved, price 20,
no operatingHours configuration. -/
def courtC : CtrlCourt :=
  { id := 7, venueId := 1, pricePerHour := 20, venueApproved := true,
    operatingHours := none }

/-- The booking the race's first request inserts (14:00-15:00, amount
(900-840)/60*20, which is 20; the amount is spelled as the handler
computes it). -/
def bookingRace1 : Booking :=
  { id := 1, courtId := 7, venueId := 1, userId := 5,
    bookingDate := 19001, startTime := 840, endTime := 900,
    totalAmount := (((900 : Nat) : Rat) - ((840 : Nat) : Rat)) / 60 * 20,
    status := .confirmed }

/-- The booking the race's second request inserts: the identical
interval under a fresh id. -/
def bookingRace2 : Booking :=
  { id := 2, courtId := 7, venueId := 1, userId := 5,
    bookingDate := 19001, startTime := 840, endTime := 900,
    totalAmount := (((900 : Nat) : Rat) - ((840 : Nat) : Rat)) / 60 * 20,
    status := .confirmed }

/-- Claim C1: the check-for-overlap and the booking insert of
createBooking are claimed to execute as one atomic serializable
transaction, so that parallel calls for the identical interval yield
exactly one confirmed booking. In the source the conflict scan and the
insert are separate non-transactional database calls, so the schedule
check-A, check-B, insert-A, insert-B of two identical 14:00-15:00
requests over an empty ledger commits TWO confirmed bookings with
overlapping (identical) intervals, violating the claimed exactly-one
outcome. -/
theorem c1_race_double_books :
    interleavedRace envC clockC [] reqC reqC = [bookingRace1, bookingRace2] ∧
    bookingRace1.status = BookingStatus.confirmed ∧
    bookingRace2.status = BookingStatus.confirmed ∧
    specOverlaps bookingRace1.startTime bookingRace1.endTime
      bookingRace2.startTime bookingRace2.endTime = true ∧
    (List.filter (fun b => b.status == BookingStatus.confirmed)
      (interleavedRace envC clockC [] reqC reqC)).length = 2 ∧
    bookingRace1.totalAmount = 20 := by
  refine ⟨rfl, rfl, rfl, by decide, rfl, ?_⟩
  show (((900 : Nat) : Rat) - ((840 : Nat) : Rat)) / 60 * 20 = 20
  norm_num

/-- Fixture existing confirmed booking 11:00-12:00 on court 7,
epoch day 19001. -/
def existingMid : Booking :=
  { id := 1, courtId := 7, venueId := 1, userId := 9,
    bookingDate := 19001, startTime := 660, endTime := 720,
    totalAmount := 20, status := .confirmed }

/-- Fixture completed booking 11:00-12:00 on court 7, day 19001. -/
def existingDone : Booking :=
  { id := 1, courtId := 7, venueId := 1, userId := 9,
    bookingDate := 19001, startTime := 660, endTime := 720,
    totalAmount := 20, status := .completed }

/-- Fixture controller request 10:00-13:00, strictly containing
existingMid, with no client-supplied amount. -/
def reqWide : CtrlRequest :=
  { courtId := 7, bookingDate := 19001, startMinutes := 600,
    endMinutes := 780, clientTotal := none, userId := 5 }

/-- The booking the controller inserts for reqWide (amount
20 * 180/60, which is 60; spelled as the controller computes it). -/
def bookingWide : Booking :=
  { id := 2, courtId := 7, venueId := 1, userId := 5,
    bookingDate := 19001, startTime := 600, endTime := 780,
    totalAmount := (20 : Rat) * (((180 : Nat) : Rat) / 60),
    status := .confirmed }

/-- Claim C2: the controller's createBooking is claimed to conflict
exactly on half-open overlap with pending/confirmed bookings. Its
two-clause query misses an existing active booking strictly contained
in the proposed interval: 11:00-12:00 confirmed overlaps the proposed
10:00-13:00 under the spec rule, yet the query returns no conflict and
the insert goes through, leaving two overlapping confirmed bookings;
and because the query filters status != cancelled, a completed booking
does block. -/
theorem c2_containment_missed :
    specOverlaps 600 780 existingMid.startTime existingMid.endTime = true ∧
    ctrlConflict [existingMid] 7 19001 600 780 = none ∧
    createBooking (some courtC) true clockC [existingMid] 2 reqWide =
      (CtrlResult.created bookingWide, [existingMid, bookingWide]) ∧
    bookingWide.totalAmount = 60 ∧
    ctrlConflict [existingDone] 7 19001 660 720 = some existingDone := by
  refine ⟨by decide, by decide, rfl, ?_, by decide⟩
  show (20 : Rat) * (((180 : Nat) : Rat) / 60) = 60
  norm_num

/-- Fixture availability request with endTime before startTime:
court 7, day 19001, 14:00-13:00. -/
def reqRev : FlexRequest :=
  { venueId := 1, courtId := 7, bookingDate := 19001,
    startMinutes := 840, endMinutes := 780, userId := 5 }

/-- Claim C10: the read-only availability check never validates
startTime < endTime. For the 14:00-13:00 request on an open future day
with no bookings it answers success with isAvailable true, duration -1
hours and totalAmount -20, while the booking-creation path rejects the
same input as invalid-range. -/
theorem c10_no_range_validation :
    checkAvailability envC clockC [] reqRev =
      AvailResult.ok true (-1) (-20) ∧
    (flexibleBooking envC clockC [] 1 reqRev).1 = FlexResult.invalidRange := by
  have h : checkAvailability envC clockC [] reqRev =
      AvailResult.ok true
        ((((780 : Nat) : Rat) - ((840 : Nat) : Rat)) / 60)
        ((((780 : Nat) : Rat) - ((840 : Nat) : Rat)) / 60 * 20) := rfl
  refine ⟨?_, rfl⟩
  rw [h]
  norm_num

/-- Fixture booking that is already cancelled (id 1, user 5). -/
def bCancelled : Booking :=
  { id := 1, courtId := 7, venueId := 1, userId := 5,
    bookingDate := 19001, startTime := 600, endTime := 660,
    totalAmount := 20, status := .cancelled,
    cancelledAt := some 50,
    cancellationReason := some "Cancelled by customer" }

/-- Claim C3 counterexample: cancelling the already-cancelled booking
again is NOT a success returning the existing record; the controller's
findFirst filters status not cancelled, finds nothing, and answers the
404 "Booking not found or already cancelled". -/
theorem c3_counterexample :
    cancelBooking [bCancelled] 1 5 none 100 =
      (CancelResult.notFound, [bCancelled]) := by
  decide

/-- Claim C3 amended: cancelling a booking that is already cancelled
(more generally, when every booking with the given id and user is
cancelled) returns the not-found error and leaves the Booking table
unchanged: a state no-op, but an error response rather than a success
returning the record. -/
theorem c3_cancel_again_errors (L : List Booking) (bid uid : Nat)
    (r : Option String) (now : Nat)
    (h : ∀ b ∈ L, b.id = bid → b.userId = uid →
      b.status = BookingStatus.cancelled) :
    cancelBooking L bid uid r now = (CancelResult.notFound, L) := by
  unfold cancelBooking
  have hf : (L.find? fun b =>
      b.id == bid && b.userId == uid && b.status != .cancelled) = none := by
    apply List.find?_eq_none.mpr
    intro b hb
    simp only [Bool.and_eq_true, beq_iff_eq, bne_iff_ne, ne_eq,
      not_and, not_not]
    intro hid
    exact h b hb hid.1 hid.2
  rw [hf]

/-- Witness for the amended C3 theorem at the fixture booking. -/
theorem c3_cancel_again_errors_witness :
    cancelBooking [bCancelled] 1 5 (some "changed mind") 123 =
      (CancelResult.notFound, [bCancelled]) :=
  c3_cancel_again_errors [bCancelled] 1 5 (some "changed mind") 123
    (by decide)

/-- Fixture controller request court 7, day 19001, 14:00-15:00,
no client amount. -/
def reqCtrl : CtrlRequest :=
  { courtId := 7, bookingDate := 19001, startMinutes := 840,
    endMinutes := 900, clientTotal := none, userId := 5 }

/-- The booking the controller inserts for reqCtrl on courtC (which
has zero configured operating windows). -/
def bookingNoOH : Booking :=
  { id := 1, courtId := 7, venueId := 1, userId := 5,
    bookingDate := 19001, startTime := 840, endTime := 900,
    totalAmount := (20 : Rat) * (((60 : Nat) : Rat) / 60),
    status := .confirmed }

/-- Claim C4 counterexample: on the controller path, a court with zero
configured operating windows (court.operatingHours unset) is NOT
rejected with the venue-closed error: the operating-hours block is
skipped entirely and the booking is created. -/
theorem c4_counterexample :
    courtC.operatingHours = none ∧
    createBooking (some courtC) true clockC [] 1 reqCtrl =
      (CtrlResult.created bookingNoOH, [bookingNoOH]) := by
  exact ⟨rfl, rfl⟩

/-- Claim C4 amended (flexible-booking path): when no active
venue working-hours row matches the weekday (in particular when the
venue has zero rows), a request that passes the earlier checks is
rejected venue-closed naming the weekday, and nothing is inserted. -/
theorem c4_flex_no_window_closed (env : Env) (clock : Clock)
    (ledger : List Booking) (nextId : Nat) (req : FlexRequest)
    (hv : env.venueApproved = true) (hc : env.courtFound = true)
    (hr : req.startMinutes < req.endMinutes)
    (hpd : ¬ req.bookingDate < clock.today)
    (hpt : ¬ (req.bookingDate = clock.today ∧
      req.startMinutes ≤ clock.nowMinutes))
    (hw : findWorkingHour env.workingHours req.venueId
      (dayOfWeek req.bookingDate) = none) :
    flexibleBooking env clock ledger nextId req =
      (FlexResult.venueClosed (dayOfWeek req.bookingDate), ledger) := by
  unfold flexibleBooking
  rw [hv, hc]
  simp only [Bool.not_true, Bool.false_eq_true, if_false]
  rw [if_neg (by omega), if_neg hpd, if_neg (by
    simp only [Bool.and_eq_true, beq_iff_eq, decide_eq_true_eq]
    exact hpt), hw]

/-- Witness for the amended C4 theorem: zero configured rows, the
14:00-15:00 request for the Sunday is rejected venue-closed. -/
theorem c4_flex_no_window_closed_witness :
    flexibleBooking envNoWH clockC [] 1 reqC =
      (FlexResult.venueClosed (dayOfWeek 19001), []) :=
  c4_flex_no_window_closed envNoWH clockC [] 1 reqC rfl rfl
    (by decide) (by decide) (by decide) rfl

/-- Fixture request with a past date AND an inverted range:
day 18999 (yesterday), 15:00-14:00. -/
def reqPastBad : FlexRequest :=
  { venueId := 1, courtId := 7, bookingDate := 18999,
    startMinutes := 900, endMinutes := 840, userId := 5 }

/-- Claim C7 counterexample: for a request whose date is before today
and whose interval has start >= end, the handler answers the
invalid-range rejection, not the past-date one: the source checks the
time range (line 62) before the past-date rule (line 76). -/
theorem c7_counterexample :
    (flexibleBooking envC clockC [] 1 reqPastBad).1 =
      FlexResult.invalidRange ∧
    (flexibleBooking envC clockC [] 1 reqPastBad).1 ≠
      FlexResult.pastDate := by
  decide

/-- Claim C7 amended: after the venue and court lookups the rules run
in the order invalid-range, past-date, past-time, operating-hours,
short-circuiting on the first failure; hence every request with a past
date whose interval also has start >= end is rejected invalid-range. -/
theorem c7_invalid_range_first (env : Env) (clock : Clock)
    (ledger : List Booking) (nextId : Nat) (req : FlexRequest)
    (hv : env.venueApproved = true) (hc : env.courtFound = true)
    (hr : req.endMinutes ≤ req.startMinutes)
    (_hpd : req.bookingDate < clock.today) :
    flexibleBooking env clock ledger nextId req =
      (FlexResult.invalidRange, ledger) := by
  unfold flexibleBooking
  rw [hv, hc]
  simp only [Bool.not_true, Bool.false_eq_true, if_false]
  rw [if_pos hr]

/-- Witness for the amended C7 theorem at the fixture request. -/
theorem c7_invalid_range_first_witness :
    flexibleBooking envC clockC [] 1 reqPastBad =
      (FlexResult.invalidRange, []) :=
  c7_invalid_range_first envC clockC [] 1 reqPastBad rfl rfl
    (by decide) (by decide)

/-- Claim C5: an interval exactly abutting an existing booking
(existing end = new start, or new end = existing start) is reported by
none of the conflict tests: not by the four-clause query of the
reservation path, not by the controller's two-clause query, and not by
the half-open test of the read-only availability check. -/
theorem c5_abutting_never_conflicts (b : Booking) (S E : Nat)
    (hb : b.startTime < b.endTime) (hSE : S < E)
    (h : b.endTime = S ∨ E = b.startTime) :
    flexOverlapClause b S E = false ∧
    ctrlOverlapClause b S E = false ∧
    specOverlaps S E b.startTime b.endTime = false := by
  unfold flexOverlapClause ctrlOverlapClause specOverlaps
  rcases h with h | h <;> refine ⟨?_, ?_, ?_⟩ <;> simp <;> omega

/-- Witness for C5: a 09:00-10:00 booking and a proposed 10:00-11:00
interval trigger none of the three conflict tests. -/
theorem c5_abutting_never_conflicts_witness :
    flexOverlapClause
      { id := 1, courtId := 7, venueId := 1, userId := 9,
        bookingDate := 19001, startTime := 540, endTime := 600,
        totalAmount := 20, status := .confirmed } 600 660 = false ∧
    ctrlOverlapClause
      { id := 1, courtId := 7, venueId := 1, userId := 9,
        bookingDate := 19001, startTime := 540, endTime := 600,
        totalAmount := 20, status := .confirmed } 600 660 = false ∧
    specOverlaps 600 660 540 600 = false :=
  c5_abutting_never_conflicts
    { id := 1, courtId := 7, venueId := 1, userId := 9,
      bookingDate := 19001, startTime := 540, endTime := 600,
      totalAmount := 20, status := .confirmed } 600 660
    (by decide) (by decide) (Or.inl rfl)

/-- Claim C6: for a same-day request that passed the venue, court and
range checks, the handler rejects past-time exactly when the requested
start is at or before the clock's minutes-of-day; a start strictly
after now passes the past-time rule. -/
theorem c6_same_day_past_time (env : Env) (clock : Clock)
    (ledger : List Booking) (nextId : Nat) (req : FlexRequest)
    (hv : env.venueApproved = true) (hc : env.courtFound = true)
    (hr : req.startMinutes < req.endMinutes)
    (hd : req.bookingDate = clock.today) :
    ((flexibleBooking env clock ledger nextId req).1 =
      FlexResult.pastTime clock.nowMinutes ↔
      req.startMinutes ≤ clock.nowMinutes) := by
  unfold flexibleBooking
  rw [hv, hc]
  simp only [Bool.not_true, Bool.false_eq_true, if_false]
  rw [if_neg (by omega), if_neg (by omega)]
  by_cases hle : req.startMinutes ≤ clock.nowMinutes
  · rw [if_pos (by simp [hd, hle])]
    simp [hle]
  · rw [if_neg (by simp [hd, hle])]
    simp only [hle, iff_false]
    intro hcontra
    repeat' split at hcontra
    all_goals simp at hcontra

/-- Witness for C6 at the fixture clock (now 10:00): a same-day
09:00-10:00 request is rejected past-time. -/
theorem c6_same_day_past_time_witness :
    (flexibleBooking envC clockC []
      1 { venueId := 1, courtId := 7, bookingDate := 19000,
          startMinutes := 540, endMinutes := 600, userId := 5 }).1 =
      FlexResult.pastTime 600 :=
  (c6_same_day_past_time envC clockC [] 1
    { venueId := 1, courtId := 7, bookingDate := 19000,
      startMinutes := 540, endMinutes := 600, userId := 5 }
    rfl rfl (by decide) rfl).mpr (by decide)

/-- Fixture controller request 14:00-15:00 with a client-supplied
totalAmount of 1. -/
def reqPaid : CtrlRequest :=
  { courtId := 7, bookingDate := 19001, startMinutes := 840,
    endMinutes := 900, clientTotal := some 1, userId := 5 }

/-- The booking the controller inserts for reqPaid: the amount is the
client-supplied 1, not the computed 20. -/
def bookingPaid : Booking :=
  { id := 1, courtId := 7, venueId := 1, userId := 5,
    bookingDate := 19001, startTime := 840, endTime := 900,
    totalAmount := 1, status := .confirmed }

/-- Claim C8 counterexample: in the controller's createBooking a
truthy client-supplied totalAmount takes precedence over the computed
price: the one-hour booking at pricePerHour 20 is created with
totalAmount 1 instead of duration * price = 20. -/
theorem c8_counterexample :
    createBooking (some courtC) true clockC [] 1 reqPaid =
      (CtrlResult.created bookingPaid, [bookingPaid]) ∧
    bookingPaid.totalAmount = 1 ∧
    (((900 : Nat) : Rat) - ((840 : Nat) : Rat)) / 60 *
      courtC.pricePerHour = 20 ∧
    (1 : Rat) ≠ 20 := by
  exact ⟨by decide, rfl, by norm_num [courtC], by norm_num⟩

/-- Claim C8 amended: in the flexible-booking path every created
booking carries totalAmount = (end - start)/60 * pricePerHour derived
from the requested interval alone; in the controller path the same
holds only when the request carries no client totalAmount (the
client's truthy amount wins otherwise). -/
theorem c8_amount_sources :
    (∀ (env : Env) (clock : Clock) (ledger : List Booking)
        (nextId : Nat) (req : FlexRequest) (b : Booking)
        (L2 : List Booking),
      flexibleBooking env clock ledger nextId req =
        (FlexResult.created b, L2) →
      b.totalAmount = ((req.endMinutes : Rat) - (req.startMinutes : Rat))
        / 60 * env.pricePerHour) ∧
    (∀ (court : CtrlCourt) (slot : Bool) (clock : Clock)
        (ledger : List Booking) (nextId : Nat) (req : CtrlRequest)
        (b : Booking) (L2 : List Booking),
      req.clientTotal = none →
      createBooking (some court) slot clock ledger nextId req =
        (CtrlResult.created b, L2) →
      b.totalAmount = court.pricePerHour *
        (((req.endMinutes - req.startMinutes : Nat) : Rat) / 60)) := by
  constructor
  · intro env clock ledger nextId req b L2 h
    simp only [flexibleBooking] at h
    split at h
    case isTrue => exact absurd h (by simp)
    split at h
    case isTrue => exact absurd h (by simp)
    split at h
    case isTrue => exact absurd h (by simp)
    split at h
    case isTrue => exact absurd h (by simp)
    split at h
    case isTrue => exact absurd h (by simp)
    split at h
    case h_1 heq => exact absurd h (by simp)
    case h_2 w heq =>
      split at h
      case isTrue => exact absurd h (by simp)
      split at h
      case isTrue => exact absurd h (by simp)
      split at h
      case isTrue => exact absurd h (by simp)
      simp only [Prod.mk.injEq, FlexResult.created.injEq] at h
      obtain ⟨hb, -⟩ := h
      subst hb
      rfl
  · intro court slot clock ledger nextId req b L2 hct h
    simp only [createBooking, hct] at h
    split at h
    case isTrue => exact absurd h (by simp)
    split at h
    case isTrue => exact absurd h (by simp)
    split at h
    case isTrue => exact absurd h (by simp)
    split at h
    case isTrue => exact absurd h (by simp)
    split at h
    case h_1 e heq =>
      have he : e = CtrlResult.created b := by
        have h1 := congrArg Prod.fst h
        simpa using h1
      rw [he] at heq
      rcases hoh : court.operatingHours with _ | o
      · rw [hoh] at heq
        simp at heq
      · rw [hoh] at heq
        simp only [ohCheck] at heq
        split_ifs at heq <;> simp_all
    case h_2 heq =>
      split at h
      case isTrue => exact absurd h (by simp)
      split at h
      case h_1 cb hceq => exact absurd h (by simp)
      case h_2 hceq =>
        simp only [Prod.mk.injEq, CtrlResult.created.injEq] at h
        obtain ⟨hb, -⟩ := h
        subst hb
        rfl

/-- Witness for the amended C8 theorem: the happy-path one-hour
booking at price 20 gets totalAmount (900-840)/60*20. -/
theorem c8_amount_sources_witness :
    bookingRace1.totalAmount =
      ((reqC.endMinutes : Rat) - (reqC.startMinutes : Rat)) / 60 *
        envC.pricePerHour :=
  c8_amount_sources.1 envC clockC [] 1 reqC bookingRace1
    [bookingRace1] rfl

/-- Fixture confirmed booking (id 1, user 5) to be rescheduled. -/
def bResched : Booking :=
  { id := 1, courtId := 7, venueId := 1, userId := 5,
    bookingDate := 19001, startTime := 600, endTime := 660,
    totalAmount := 20, status := .confirmed }

/-- The same record after rescheduling to day 19002, 12:00-13:00:
same id, same status, mutated date and interval. -/
def bReschedNew : Booking :=
  { id := 1, courtId := 7, venueId := 1, userId := 5,
    bookingDate := 19002, startTime := 720, endTime := 780,
    totalAmount := 20, status := .confirmed }

/-- Claim C9 counterexample: rescheduleBooking mutates the existing
record in place — the resulting table still has one row, with the same
id and status but a different bookingDate/startTime/endTime, and no
cancellation metadata is stamped; no cancel-plus-create happens. -/
theorem c9_counterexample :
    rescheduleBooking [bResched] 1 5 19002 720 780 =
      (RescheduleResult.rescheduled bReschedNew, [bReschedNew]) ∧
    bReschedNew.id = bResched.id ∧
    bReschedNew.startTime ≠ bResched.startTime ∧
    bReschedNew.bookingDate ≠ bResched.bookingDate ∧
    bReschedNew.status = BookingStatus.confirmed ∧
    bReschedNew.cancelledAt = none := by
  decide

/-- Claim C9 amended: whenever rescheduleBooking answers rescheduled,
the new table is the old one with the targeted row replaced in place:
same length, the returned record keeps the looked-up id and carries
the new date and interval. A reschedule is an in-place update of
bookingDate/startTime/endTime, not a cancel-plus-create. -/
theorem c9_reschedule_in_place (L : List Booking)
    (bid uid nd ns ne : Nat) (b1 : Booking) (L2 : List Booking)
    (h : rescheduleBooking L bid uid nd ns ne =
      (RescheduleResult.rescheduled b1, L2)) :
    L2 = L.map (fun b => if b.id == bid then b1 else b) ∧
    L2.length = L.length ∧
    b1.id = bid ∧ b1.bookingDate = nd ∧
    b1.startTime = ns ∧ b1.endTime = ne := by
  unfold rescheduleBooking at h
  split at h
  · simp at h
  · rename_i b0 hfind
    split at h
    · simp at h
    · have hpred := List.find?_some hfind
      simp only [Bool.and_eq_true, beq_iff_eq] at hpred
      simp only [Prod.mk.injEq, RescheduleResult.rescheduled.injEq] at h
      obtain ⟨hb, hL⟩ := h
      subst hb
      refine ⟨hL.symm, ?_, ?_, rfl, rfl, rfl⟩
      · rw [← hL, List.length_map]
      · exact hpred.1.1

/-- Witness for the amended C9 theorem at the fixture booking. -/
theorem c9_reschedule_in_place_witness :
    [bReschedNew] =
      [bResched].map (fun b => if b.id == 1 then bReschedNew else b) ∧
    ([bReschedNew] : List Booking).length = [bResched].length ∧
    bReschedNew.id = 1 ∧ bReschedNew.bookingDate = 19002 ∧
    bReschedNew.startTime = 720 ∧ bReschedNew.endTime = 780 :=
  c9_reschedule_in_place [bResched] 1 5 19002 720 780 bReschedNew
    [bReschedNew] (by decide)

end QuickCourt
